import Mathlib

/-
Shallow embedding of the p2p2 Swarm component (src/unnamed/part_000 of
vuittont60/go-spacemesh).  The Swarm owns four tables (peers, connections,
peersByConnection, pendingOutgoingMessages) and mutates them only from the
handlers dispatched by its single event loop `beginProcessingEvents`.

Go maps keyed by string are embedded as functions `String -> Option V`.
Calls the handlers make into external collaborators (logging, closing a
connection, the handshake protocol, the callback channels) are embedded as
an explicit effect list returned next to the updated state, so that a
theorem can talk about which external actions a handler performs.
-/

namespace P2P2

/-- Go map keyed by string, embedded as a function into Option. -/
def Table (V : Type) : Type := String → Option V

/-- Go map write `m[k] = v`. -/
def Table.insertKey {V : Type} (m : Table V) (k : String) (v : V) : Table V :=
  fun x => if x = k then some v else m x

/-- Go builtin `delete(m, k)`. -/
def Table.deleteKey {V : Type} (m : Table V) (k : String) : Table V :=
  fun x => if x = k then none else m x

/-- Go `make(map[string]V)`: the empty table. -/
def Table.emptyTable {V : Type} : Table V := fun _ => none

/-- Session: cryptographic state attached to a RemoteNode after a handshake.
Modelled from the spec: the NetworkSession code is not under src/; the spec
gives it a session id and an authenticated flag. -/
structure NetworkSession where
  sessionId : String
  authenticated : Bool
deriving DecidableEq, Repr

/-- RemoteNode: identity plus at most one session.  Modelled from the spec:
the RemoteNode code is not under src/; the spec gives it a peer id, a network
address, and a zero-or-one Session reference. -/
structure RemoteNode where
  id : String
  ip : String
  session : Option NetworkSession
deriving DecidableEq, Repr

/-- Predicate behind the Go call `remoteNode.HasSession()`.  Modelled from the
spec: RemoteNode exposes a boolean saying whether a Session is attached. -/
def RemoteNode.hasSession (rn : RemoteNode) : Bool :=
  rn.session.isSome

/-- NewRemoteNode: constructs a RemoteNode from a peer id and an address.
Modelled from the spec: the constructor is not under src/; per the spec it can
fail on a malformed address (modelled here as the empty address string), and a
freshly constructed node carries no session. -/
def NewRemoteNode (nodeId : String) (nodeIp : String) : Option RemoteNode :=
  if nodeIp = "" then none else some { id := nodeId, ip := nodeIp, session := none }

/-- Connection: one framed byte stream; `Id()` is its key in the tables. -/
structure Connection where
  id : String
deriving DecidableEq, Repr

/-- ConnectionMessage: an incoming-message event from the Network, carrying
the connection it arrived on and the raw bytes. -/
structure ConnectionMessage where
  connection : Connection
  message : List Nat
deriving DecidableEq, Repr

/-- pb.CommonMessageData: the common wire envelope; only the payload field
matters to the Swarm handler (empty payload means handshake message). -/
structure CommonMessageData where
  payload : List Nat
deriving DecidableEq, Repr

/-- SendMessageReq from the source: destination id, caller request id, bytes. -/
structure SendMessageReq where
  remoteNodeId : String
  reqId : String
  msg : List Nat
deriving DecidableEq, Repr

/-- NodeResp from the source: result delivered on a NodeReq callback channel;
the error is embedded as an optional message string. -/
structure NodeResp where
  remoteNodeId : String
  err : Option String
deriving DecidableEq, Repr

/-- NodeReq from the source: connect/disconnect request data.  The Go field
`callback chan NodeResp` is embedded as an opaque channel identity; a handler
that writes a response to the channel emits a respond effect naming it. -/
structure NodeReq where
  remoteNodeId : String
  remoteNodeIp : String
  callback : String
deriving DecidableEq, Repr

/-- ConnectionError event payload (opaque: the handler body is empty). -/
structure ConnectionError where
  connId : String
deriving DecidableEq, Repr

/-- MessageSendError event payload (opaque: the handler body is empty). -/
structure MessageSendError where
  connId : String
deriving DecidableEq, Repr

/-- Demuxer: routing table from protocol id to a registered handler.
Modelled from the spec: NewDemuxer and the Demuxer code are not under src/;
the spec describes it as a pure routing table, handlers abstracted as names. -/
structure Demuxer where
  handlers : Table String

/-- NewDemuxer: a freshly created Demuxer with no registered handlers.
Modelled from the spec: routing starts with an empty table. -/
def NewDemuxer : Demuxer := { handlers := Table.emptyTable }

/-- Network collaborator, reduced to the identity the Swarm stores. -/
structure Network where
  tcpAddress : String
deriving DecidableEq, Repr

/-- Error returned by NewNetwork.  Modelled from the spec: NewNetwork is not
under src/; it either yields a Network or an error. -/
structure NetworkError where
  msg : String
deriving DecidableEq, Repr

/-- LocalNode collaborator, reduced to the identity the Swarm stores. -/
structure LocalNode where
  id : String
deriving DecidableEq, Repr

/-- External actions a handler can perform, in program order.  The respond
and routeToDemuxer constructors exist so theorems can state that a handler
never delivers a callback result or never dispatches a message; the current
source emits neither anywhere. -/
inductive SwarmEffect where
  | logWarning : SwarmEffect
  | logInfo : SwarmEffect
  | closeConnection : String → SwarmEffect
  | createSession : Option RemoteNode → SwarmEffect
  | querySession : RemoteNode → SwarmEffect
  | respond : String → NodeResp → SwarmEffect
  | routeToDemuxer : List Nat → SwarmEffect
deriving DecidableEq, Repr

/-- Mutable and immutable state of swarmImpl. -/
structure SwarmState where
  network : Network
  localNode : LocalNode
  demuxer : Demuxer
  peers : Table RemoteNode
  connections : Table Connection
  peersByConnection : Table RemoteNode
  pendingOutgoingMessages : Table SendMessageReq

/-- NewSwarm from the source, with the result of the NewNetwork call (whose
code is not under src/) passed in as an argument.  On a network error it
returns no swarm and the error; otherwise it returns the swarm with all four
tables empty, the supplied local node installed, a fresh demuxer, and the nil
error that the final Go statement returns (err is unchanged and nil there). -/
def NewSwarm (networkResult : Except NetworkError Network) (l : LocalNode) :
    Option SwarmState × Option NetworkError :=
  match networkResult with
  | Except.error e => (none, some e)
  | Except.ok n =>
      (some { network := n
            , localNode := l
            , demuxer := NewDemuxer
            , peers := Table.emptyTable
            , connections := Table.emptyTable
            , peersByConnection := Table.emptyTable
            , pendingOutgoingMessages := Table.emptyTable }, none)

/-- onConnectionRequest from the source.  The Go body declares the inner node
with a short variable declaration inside the if block, which shadows the outer
remoteNode variable: after the block the outer variable is still nil, so the
has-session check at line 205 is skipped and CreateSession at line 216 is
called with a nil RemoteNode in the freshly-constructed case.  The embedding
reproduces that control flow exactly; the createSession effect carries the
possibly-nil pointer as an Option. -/
def onConnectionRequest (s : SwarmState) (req : NodeReq) :
    SwarmState × List SwarmEffect :=
  match s.peers req.remoteNodeId with
  | none =>
      match NewRemoteNode req.remoteNodeId req.remoteNodeIp with
      | none => (s, [])
      | some rn =>
          ({ s with peers := s.peers.insertKey req.remoteNodeId rn },
           [SwarmEffect.createSession none])
  | some rn =>
      if rn.hasSession then
        (s, [SwarmEffect.logInfo, SwarmEffect.querySession rn])
      else
        (s, [SwarmEffect.createSession (some rn)])

/-- onDisconnectionRequest from the source: the body is empty. -/
def onDisconnectionRequest (s : SwarmState) (_req : NodeReq) :
    SwarmState × List SwarmEffect :=
  (s, [])

/-- onSendMessageRequest from the source: the only executable statement stores
the request in pendingOutgoingMessages under its reqId; there is no duplicate
check and no callback interaction. -/
def onSendMessageRequest (s : SwarmState) (r : SendMessageReq) :
    SwarmState × List SwarmEffect :=
  ({ s with pendingOutgoingMessages :=
      s.pendingOutgoingMessages.insertKey r.reqId r }, [])

/-- onConnectionClosed from the source: deletes the connection id from the
connection table and from the peersByConnection index; nothing else. -/
def onConnectionClosed (s : SwarmState) (c : Connection) :
    SwarmState × List SwarmEffect :=
  ({ s with connections := s.connections.deleteKey c.id
          , peersByConnection := s.peersByConnection.deleteKey c.id }, [])

/-- onRemoteClientConnected from the source: the body is a no-op. -/
def onRemoteClientConnected (s : SwarmState) (_c : Connection) :
    SwarmState × List SwarmEffect :=
  (s, [])

/-- onRemoteClientMessage from the source, parameterised by the protobuf
decoder (an external library).  On a decode error it logs a warning, closes
the connection and returns.  Both branches of the payload-length test contain
only comments in the source, so on a successful decode the handler changes
nothing and performs no external action. -/
def onRemoteClientMessage (decode : List Nat → Option CommonMessageData)
    (s : SwarmState) (msg : ConnectionMessage) : SwarmState × List SwarmEffect :=
  match decode msg.message with
  | none =>
      (s, [SwarmEffect.logWarning, SwarmEffect.closeConnection msg.connection.id])
  | some c =>
      if c.payload.length = 0 then (s, [])
      else (s, [])

/-- onConnectionError from the source: the body is empty. -/
def onConnectionError (s : SwarmState) (_e : ConnectionError) :
    SwarmState × List SwarmEffect :=
  (s, [])

/-- onMessageSendError from the source: the body is empty. -/
def onMessageSendError (s : SwarmState) (_e : MessageSendError) :
    SwarmState × List SwarmEffect :=
  (s, [])

/-- One event consumed by the select statement of beginProcessingEvents. -/
inductive SwarmEvent where
  | kill : SwarmEvent
  | newConnection : Connection → SwarmEvent
  | incomingMessage : ConnectionMessage → SwarmEvent
  | connectionError : ConnectionError → SwarmEvent
  | messageSendError : MessageSendError → SwarmEvent
  | connectionClosed : Connection → SwarmEvent
  | sendRequest : SendMessageReq → SwarmEvent
  | connectRequest : NodeReq → SwarmEvent
  | disconnectRequest : NodeReq → SwarmEvent

/-- One iteration of the beginProcessingEvents loop: dispatch the consumed
event to its handler.  The boolean is true when the loop continues; the kill
case is a bare break (the graceful-stop work is a source todo), so it changes
nothing, emits nothing, and stops the loop. -/
def swarmStep (decode : List Nat → Option CommonMessageData)
    (s : SwarmState) (e : SwarmEvent) : SwarmState × List SwarmEffect × Bool :=
  match e with
  | SwarmEvent.kill => (s, [], false)
  | SwarmEvent.newConnection c =>
      let r := onRemoteClientConnected s c
      (r.1, r.2, true)
  | SwarmEvent.incomingMessage m =>
      let r := onRemoteClientMessage decode s m
      (r.1, r.2, true)
  | SwarmEvent.connectionError e =>
      let r := onConnectionError s e
      (r.1, r.2, true)
  | SwarmEvent.messageSendError e =>
      let r := onMessageSendError s e
      (r.1, r.2, true)
  | SwarmEvent.connectionClosed c =>
      let r := onConnectionClosed s c
      (r.1, r.2, true)
  | SwarmEvent.sendRequest r =>
      let p := onSendMessageRequest s r
      (p.1, p.2, true)
  | SwarmEvent.connectRequest n =>
      let r := onConnectionRequest s n
      (r.1, r.2, true)
  | SwarmEvent.disconnectRequest n =>
      let r := onDisconnectionRequest s n
      (r.1, r.2, true)

/-
Concrete fixtures used by the theorems below.
-/

/-- A concrete Network value. -/
def net0 : Network := { tcpAddress := "127.0.0.1:3030" }

/-- A concrete LocalNode value. -/
def local0 : LocalNode := { id := "localnode" }

/-- A concrete authenticated session. -/
def sess0 : NetworkSession := { sessionId := "s0", authenticated := true }

/-- A concrete RemoteNode that carries a session. -/
def node1 : RemoteNode := { id := "n1", ip := "1.2.3.4", session := some sess0 }

/-- A concrete connection. -/
def conn1 : Connection := { id := "c1" }

/-- A concrete pending send request with reqId r1. -/
def reqA : SendMessageReq := { remoteNodeId := "n1", reqId := "r1", msg := [1] }

/-- A second send request reusing reqId r1 with a different body. -/
def reqB : SendMessageReq := { remoteNodeId := "n2", reqId := "r1", msg := [2] }

/-- A swarm in its initial state (all tables empty). -/
def baseState : SwarmState :=
  { network := net0
  , localNode := local0
  , demuxer := NewDemuxer
  , peers := Table.emptyTable
  , connections := Table.emptyTable
  , peersByConnection := Table.emptyTable
  , pendingOutgoingMessages := Table.emptyTable }

/-- A swarm state whose pending table already holds reqA under r1. -/
def stateWithPending : SwarmState :=
  { baseState with pendingOutgoingMessages :=
      Table.emptyTable.insertKey "r1" reqA }

/-- A swarm state where connection c1 is live and bound to node1. -/
def stateBound : SwarmState :=
  { baseState with
      peers := Table.emptyTable.insertKey "n1" node1
    , connections := Table.emptyTable.insertKey "c1" conn1
    , peersByConnection := Table.emptyTable.insertKey "c1" node1 }

/-- A swarm state with one live connection and one pending send. -/
def stateLive : SwarmState :=
  { baseState with
      connections := Table.emptyTable.insertKey "c1" conn1
    , pendingOutgoingMessages := Table.emptyTable.insertKey "r1" reqA }

/-- A decoder on which every byte string fails to decode. -/
def decodeNone : List Nat → Option CommonMessageData := fun _ => none

/-- A decoder on which every byte string decodes to a non-empty payload. -/
def decodeData : List Nat → Option CommonMessageData :=
  fun _ => some { payload := [9] }

/-- A concrete incoming message on connection c1. -/
def msg0 : ConnectionMessage := { connection := conn1, message := [7] }

/-- A connect request with a malformed (empty) address. -/
def badReq : NodeReq :=
  { remoteNodeId := "n9", remoteNodeIp := "", callback := "cb9" }

/-- A connect request for the unknown peer n1 with a wellformed address. -/
def goodReq : NodeReq :=
  { remoteNodeId := "n1", remoteNodeIp := "1.2.3.4", callback := "cb1" }

/-- The RemoteNode that NewRemoteNode builds for goodReq. -/
def newNode1 : RemoteNode := { id := "n1", ip := "1.2.3.4", session := none }

/-
Theorems settling the claims.
-/

/-- Claim C1, counterexample: with reqA already pending under r1, submitting
reqB with the same reqId is not rejected: the handler overwrites the
pre-existing entry (the table now maps r1 to reqB, not reqA) and reports no
error to the caller (no effects at all). -/
theorem send_duplicate_reqId_overwrites_entry :
    stateWithPending.pendingOutgoingMessages "r1" = some reqA ∧
    (onSendMessageRequest stateWithPending reqB).1.pendingOutgoingMessages "r1"
      = some reqB ∧
    reqB ≠ reqA ∧
    (onSendMessageRequest stateWithPending reqB).2 = [] :=
  ⟨rfl, rfl, by decide, rfl⟩

/-- Claim C1, amended: the send handler unconditionally records the request in
the pending table under its reqId, overwriting any pre-existing entry for that
reqId; entries under other reqIds are untouched and no error is reported back
to the caller. -/
theorem send_request_overwrites_pending (s : SwarmState) (r : SendMessageReq) :
    (onSendMessageRequest s r).1.pendingOutgoingMessages r.reqId = some r ∧
    (∀ k, k ≠ r.reqId →
      (onSendMessageRequest s r).1.pendingOutgoingMessages k
        = s.pendingOutgoingMessages k) ∧
    (onSendMessageRequest s r).2 = [] := by
  refine ⟨?_, ?_, rfl⟩
  · simp [onSendMessageRequest, Table.insertKey]
  · intro k hk
    simp [onSendMessageRequest, Table.insertKey, hk]

/-- Witness for the amended claim C1 at concrete inputs. -/
theorem send_request_overwrites_pending_witness :
    (onSendMessageRequest stateWithPending reqB).1.pendingOutgoingMessages "r1"
      = some reqB ∧
    (onSendMessageRequest stateWithPending reqB).1.pendingOutgoingMessages "rX"
      = stateWithPending.pendingOutgoingMessages "rX" :=
  ⟨(send_request_overwrites_pending stateWithPending reqB).1,
   (send_request_overwrites_pending stateWithPending reqB).2.1 "rX" (by decide)⟩

/-- Claim C2: when the incoming bytes fail to decode as the common envelope,
the handler leaves the swarm state completely unchanged (no table mutation)
and its only external actions are a warning log and closing the connection
the message arrived on: nothing is routed and nothing is retried. -/
theorem malformed_envelope_closes_connection
    (decode : List Nat → Option CommonMessageData) (s : SwarmState)
    (msg : ConnectionMessage) (h : decode msg.message = none) :
    onRemoteClientMessage decode s msg =
      (s, [SwarmEffect.logWarning,
           SwarmEffect.closeConnection msg.connection.id]) := by
  simp [onRemoteClientMessage, h]

/-- Witness for claim C2 at concrete inputs. -/
theorem malformed_envelope_closes_connection_witness :
    decodeNone msg0.message = none ∧
    onRemoteClientMessage decodeNone baseState msg0 =
      (baseState, [SwarmEffect.logWarning, SwarmEffect.closeConnection "c1"]) :=
  ⟨rfl, malformed_envelope_closes_connection decodeNone baseState msg0 rfl⟩

/-- Claim C3, code evaluated at the failing input: a message decoding to an
envelope with non-empty payload arrives on connection c1, which has no bound
RemoteNode, yet the handler performs no action at all: the connection is not
closed (no closeConnection effect) and nothing is dispatched.  The source
body of the non-empty-payload branch consists only of todo comments. -/
theorem unauthenticated_payload_message_is_ignored :
    baseState.peersByConnection "c1" = none ∧
    onRemoteClientMessage decodeData baseState msg0 = (baseState, []) :=
  ⟨rfl, rfl⟩

/-- Claim C4, code evaluated at the failing input: a connect request whose
address is malformed makes NewRemoteNode fail, and the handler bare-returns:
no respond effect is emitted, so no error result ever reaches the callback
channel the caller supplied. -/
theorem connect_bad_address_delivers_no_result :
    NewRemoteNode badReq.remoteNodeId badReq.remoteNodeIp = none ∧
    onConnectionRequest baseState badReq = (baseState, []) :=
  ⟨rfl, rfl⟩

/-- Claim C5, code evaluated at the failing input: a connect request for the
absent peer n1 with a valid address stores the newly constructed RemoteNode in
the peer table, but because the Go short variable declaration shadows the
outer remoteNode variable, CreateSession is invoked with nil rather than with
the stored node. -/
theorem connect_new_peer_handshake_receives_nil :
    baseState.peers "n1" = none ∧
    (onConnectionRequest baseState goodReq).1.peers "n1" = some newNode1 ∧
    (onConnectionRequest baseState goodReq).2 = [SwarmEffect.createSession none] ∧
    SwarmEffect.createSession none ≠ SwarmEffect.createSession (some newNode1) :=
  ⟨rfl, rfl, rfl, by decide⟩

/-- Claim C6: for every prior state of the tables and every connection C,
after the connection-closed handler runs neither the connection table nor the
peers-by-connection index contains an entry for the id of C. -/
theorem connection_closed_purges_tables (s : SwarmState) (c : Connection) :
    (onConnectionClosed s c).1.connections c.id = none ∧
    (onConnectionClosed s c).1.peersByConnection c.id = none := by
  constructor <;> simp [onConnectionClosed, Table.deleteKey]

/-- Claim C7, counterexample: connection c1 is bound to node1, which carries a
session; after the connection-closed handler runs, node1 is still in the peer
table with its session still attached, so the Session reference is not
cleared as the claim states. -/
theorem connection_closed_session_not_cleared :
    stateBound.peersByConnection "c1" = some node1 ∧
    (onConnectionClosed stateBound conn1).1.peers "n1" = some node1 ∧
    node1.session ≠ none :=
  ⟨rfl, rfl, by decide⟩

/-- Claim C7, amended: the connection-closed handler leaves the peer table
entirely unchanged: a bound RemoteNode remains in the peer table with its
Session reference untouched (in particular the session is not cleared). -/
theorem connection_closed_peers_frame (s : SwarmState) (c : Connection) :
    (onConnectionClosed s c).1.peers = s.peers :=
  rfl

/-- Claim C8, code evaluated at the failing input: consuming the kill signal
in a state with a live connection and a pending send terminates the loop, but
the connection is still in the connection table (and no closeConnection
effect was emitted), and the pending entry is still present and unresolved.
The source kill case is a bare break carrying a todo comment. -/
theorem kill_leaves_connections_and_pending :
    (swarmStep decodeNone stateLive SwarmEvent.kill).2.2 = false ∧
    (swarmStep decodeNone stateLive SwarmEvent.kill).1.connections "c1"
      = some conn1 ∧
    (swarmStep decodeNone stateLive SwarmEvent.kill).1.pendingOutgoingMessages "r1"
      = some reqA ∧
    (swarmStep decodeNone stateLive SwarmEvent.kill).2.1 = [] :=
  ⟨rfl, rfl, rfl, rfl⟩

/-- Claim C10: NewSwarm returns no swarm and the error exactly when creating
the Network failed; on success it returns a swarm whose four tables are all
empty, with the supplied LocalNode installed, the created Network stored, a
fresh Demuxer, and a nil error. -/
theorem NewSwarm_result_characterisation :
    (∀ e l, NewSwarm (Except.error e) l = (none, some e)) ∧
    (∀ n l, ∃ s, NewSwarm (Except.ok n) l = (some s, none) ∧
      s.network = n ∧ s.localNode = l ∧ s.demuxer = NewDemuxer ∧
      (∀ k, s.peers k = none) ∧ (∀ k, s.connections k = none) ∧
      (∀ k, s.peersByConnection k = none) ∧
      (∀ k, s.pendingOutgoingMessages k = none)) := by
  constructor
  · intro e l
    rfl
  · intro n l
    exact ⟨_, rfl, rfl, rfl, rfl, fun k => rfl, fun k => rfl,
           fun k => rfl, fun k => rfl⟩

end P2P2
